import Mathlib

/-!
Verification development for the `ventaxia_ha` Home Assistant integration.

The two components with nontrivial behaviour are modelled here as shallow
embeddings translated from the Python source:

* `VentAxiaCoordinator` (`custom_components/ventaxia_ha/__init__.py`):
  the receive loop `_receive_loop` / `_notify_update`, the disconnect
  handler `_handle_disconnect`, the callback registry
  `remove_update_callback`, and the task-lifecycle transitions of
  `async_start` / `async_stop`.
* `VentAxiaRuntimeTimer` (`custom_components/ventaxia_ha/runtime_timer.py`):
  `remaining`, `async_start_timer`, `_timer_update_loop`,
  `async_cancel_timer`.
* `validate_input` (`custom_components/ventaxia_ha/config_flow.py`).

The single cooperative asyncio event loop is modelled by sequential
traces of events; awaited calls on the external client library
(`AsyncNativePskClient`, `VentMessageProcessor`) are modelled by their
interface contract: a stream of decoded messages that may end, be
cancelled, or raise, a `connect` whose success/failure per attempt is an
oracle `Nat → Bool`, and `close` as an emitted event.
-/

namespace VentAxia

/-! ### Receive loop (`VentAxiaCoordinator._receive_loop`, `_notify_update`)

The Python loop is

```
try:
    async for msg in self.client:
        await self.processor.process(msg)
        self._notify_update()
except asyncio.CancelledError:
    _LOGGER.debug("Receive loop cancelled")
finally:
    await self.client.close()
```

The inbound stream is a list of items: each item is either a decoded
message, a cooperative cancellation delivered at that await point, or an
unexpected exception raised from decoding/processing at that point.
The loop body runs strictly sequentially on the event loop, so its
behaviour is the trace of events it emits in order. -/

/-- One item delivered at the `async for` / `process` await point:
a decoded message, a cooperative cancellation, or an unexpected
exception from decoding or processing. -/
inductive StreamItem (μ : Type) where
  | msg (m : μ)
  | cancelled
  | failure
  deriving DecidableEq

/-- Observable events emitted by the receive loop, in order:
forwarding a message to `processor.process`, invoking one registered
callback from `_notify_update`, or awaiting `client.close()`. -/
inductive LoopEvent (μ κ : Type) where
  | processMsg (m : μ)
  | invokeCallback (c : κ)
  | closeClient
  deriving DecidableEq

/-- `VentAxiaCoordinator._receive_loop`, as the trace of events it emits.
For each message: `await processor.process(msg)` then `_notify_update()`,
which invokes every callback of `self._callbacks` in registration order.
A cancellation is caught (`except asyncio.CancelledError`), any other
exception propagates; in every case the `finally` block awaits
`client.close()` exactly once before the coroutine finishes. -/
def receive_loop {μ κ : Type} (cbs : List κ) :
    List (StreamItem μ) → List (LoopEvent μ κ)
  | [] => [.closeClient]
  | .msg m :: rest =>
      .processMsg m :: (cbs.map .invokeCallback ++ receive_loop cbs rest)
  | .cancelled :: _ => [.closeClient]
  | .failure :: _ => [.closeClient]

/-- The messages forwarded to the processor, in trace order. -/
def processedMsgs {μ κ : Type} (tr : List (LoopEvent μ κ)) : List μ :=
  tr.filterMap fun e =>
    match e with
    | .processMsg m => some m
    | _ => none

/-- Number of messages forwarded to the processor (= notification rounds,
since `_notify_update` runs once directly after each processed message). -/
def processCount {μ κ : Type} (tr : List (LoopEvent μ κ)) : Nat :=
  tr.countP fun e =>
    match e with
    | .processMsg _ => true
    | _ => false

/-- Number of `client.close()` calls in a trace. -/
def closeCount {μ κ : Type} (tr : List (LoopEvent μ κ)) : Nat :=
  tr.countP fun e =>
    match e with
    | .closeClient => true
    | _ => false

theorem receive_loop_msgs_closed_form {μ κ : Type} (cbs : List κ) :
    ∀ msgs : List μ,
      receive_loop cbs (msgs.map .msg) =
        (msgs.flatMap fun m =>
          LoopEvent.processMsg m :: cbs.map LoopEvent.invokeCallback)
        ++ [LoopEvent.closeClient]
  | [] => rfl
  | m :: rest => by
      simp [receive_loop, List.flatMap_cons,
        receive_loop_msgs_closed_form cbs rest]

theorem processedMsgs_round {μ κ : Type} (m : μ) (cbs : List κ)
    (tr : List (LoopEvent μ κ)) :
    processedMsgs (.processMsg m :: (cbs.map .invokeCallback ++ tr)) =
      m :: processedMsgs tr := by
  simp [processedMsgs, List.filterMap_cons]

theorem processCount_round {μ κ : Type} (m : μ) (cbs : List κ)
    (tr : List (LoopEvent μ κ)) :
    processCount (.processMsg m :: (cbs.map .invokeCallback ++ tr)) =
      processCount tr + 1 := by
  simp [processCount, List.countP_cons]

theorem closeCount_round {μ κ : Type} (m : μ) (cbs : List κ)
    (tr : List (LoopEvent μ κ)) :
    closeCount (.processMsg m :: (cbs.map .invokeCallback ++ tr)) =
      closeCount tr := by
  simp [closeCount, List.countP_cons]

/-- **C1.** For every sequence of N inbound messages, the receive loop
forwards each message to the message processor in arrival order, one at a
time (the trace is a sequential interleaving: each `processMsg` is
immediately followed by a full callback round), and after each processed
message every registered callback is invoked in registration order, so
exactly N notification rounds fire, in receive order. -/
theorem receive_loop_in_order_notify (μ κ : Type) (msgs : List μ)
    (cbs : List κ) :
    receive_loop cbs (msgs.map .msg) =
      (msgs.flatMap fun m =>
        LoopEvent.processMsg m :: cbs.map LoopEvent.invokeCallback)
      ++ [LoopEvent.closeClient] ∧
    processedMsgs (receive_loop cbs (msgs.map .msg)) = msgs ∧
    processCount (receive_loop cbs (msgs.map .msg)) = msgs.length := by
  refine ⟨receive_loop_msgs_closed_form cbs msgs, ?_, ?_⟩
  · induction msgs with
    | nil => rfl
    | cons m rest ih =>
        simp only [List.map_cons, receive_loop]
        rw [processedMsgs_round, ih]
  · induction msgs with
    | nil => rfl
    | cons m rest ih =>
        simp only [List.map_cons, receive_loop, List.length_cons]
        rw [processCount_round, ih]

/-- **C3.** Whenever the receive loop terminates — stream end, clean
cooperative cancellation, or an unexpected exception propagating from
message decoding or processing — the transport's `close()` is invoked
exactly once before the loop coroutine finishes. -/
theorem receive_loop_closes_once (μ κ : Type)
    (stream : List (StreamItem μ)) (cbs : List κ) :
    closeCount (receive_loop cbs stream) = 1 := by
  induction stream with
  | nil => rfl
  | cons item rest ih =>
      cases item with
      | msg m =>
          simp only [receive_loop]
          rw [closeCount_round, ih]
      | cancelled => rfl
      | failure => rfl

/-! ### Disconnect handler (`VentAxiaCoordinator._handle_disconnect`)

```
self._connected = False
if not self.client._closing:
    await self.client.close()
else:
    _LOGGER.debug("Client is already closing, skipping second close()")
for attempt in range(5):
    try:
        await self.client.connect()
        self._connected = True
        self._receive_task = asyncio.create_task(self._receive_loop())
        return
    except Exception as e:
        await asyncio.sleep(10)
```

`client.connect()` is external; its outcome at the i-th attempt is an
oracle `outcome : Nat → Bool` (`true` = connect succeeds). -/

/-- Observable events of the disconnect handler, in order. -/
inductive DiscEvent where
  | closeClient
  | connectAttempt (i : Nat)
  | sleepDelay (secs : Nat)
  | spawnReceiveLoop
  deriving DecidableEq

/-- The `for attempt in range(5)` reconnect loop: `k` attempts remain,
the next attempt has index `i`. Returns the final `_connected` flag and
the emitted events. On success: connected is set, a fresh receive-loop
task is spawned, and the function returns at once. On failure: a fixed
`sleep(10)` and the next attempt. -/
def reconnect_attempts (outcome : Nat → Bool) : Nat → Nat → Bool × List DiscEvent
  | 0, _ => (false, [])
  | k + 1, i =>
      if outcome i then
        (true, [.connectAttempt i, .spawnReceiveLoop])
      else
        let r := reconnect_attempts outcome k (i + 1)
        (r.1, .connectAttempt i :: .sleepDelay 10 :: r.2)

/-- Result of `_handle_disconnect`: the `_connected` flag it leaves
behind and its emitted events. -/
structure DisconnectResult where
  connected : Bool
  events : List DiscEvent

/-- `VentAxiaCoordinator._handle_disconnect`: marks `_connected := false`,
closes the client unless it already reports `_closing`, then runs up to
5 reconnect attempts starting at index 0. -/
def handle_disconnect (closing : Bool) (outcome : Nat → Bool) :
    DisconnectResult :=
  let pre : List DiscEvent := if closing then [] else [.closeClient]
  let r := reconnect_attempts outcome 5 0
  ⟨r.1, pre ++ r.2⟩

/-- Is this event a `connect()` attempt? -/
def isConnectAttempt : DiscEvent → Bool
  | .connectAttempt _ => true
  | .closeClient => false
  | .sleepDelay _ => false
  | .spawnReceiveLoop => false

/-- Is this event the spawning of a receive-loop task? -/
def isSpawn : DiscEvent → Bool
  | .spawnReceiveLoop => true
  | .closeClient => false
  | .connectAttempt _ => false
  | .sleepDelay _ => false

/-- Is this event a backoff sleep? -/
def isSleep : DiscEvent → Bool
  | .sleepDelay _ => true
  | .closeClient => false
  | .connectAttempt _ => false
  | .spawnReceiveLoop => false

/-- Is this event a `client.close()` call? -/
def isClose : DiscEvent → Bool
  | .closeClient => true
  | .connectAttempt _ => false
  | .sleepDelay _ => false
  | .spawnReceiveLoop => false

/-- Number of `connect()` attempts in a disconnect-handler trace. -/
def attemptCount (evs : List DiscEvent) : Nat := evs.countP isConnectAttempt

/-- Number of receive-loop tasks spawned in a disconnect-handler trace. -/
def spawnCount (evs : List DiscEvent) : Nat := evs.countP isSpawn

/-- Number of fixed 10-unit sleeps in a disconnect-handler trace. -/
def sleepCount (evs : List DiscEvent) : Nat := evs.countP isSleep

/-- Number of `client.close()` calls in a disconnect-handler trace. -/
def discCloseCount (evs : List DiscEvent) : Nat := evs.countP isClose

theorem reconnect_attempts_success_step (outcome : Nat → Bool) (k i : Nat)
    (h0 : outcome i = true) :
    reconnect_attempts outcome (k + 1) i =
      (true, [.connectAttempt i, .spawnReceiveLoop]) := by
  simp [reconnect_attempts, h0]

theorem reconnect_attempts_fail_step (outcome : Nat → Bool) (k i : Nat)
    (h0 : outcome i = false) :
    reconnect_attempts outcome (k + 1) i =
      ((reconnect_attempts outcome k (i + 1)).1,
        .connectAttempt i :: .sleepDelay 10 ::
          (reconnect_attempts outcome k (i + 1)).2) := by
  simp [reconnect_attempts, h0]

theorem attemptCount_cons_attempt (i : Nat) (tr : List DiscEvent) :
    attemptCount (.connectAttempt i :: tr) = attemptCount tr + 1 := by
  simp [attemptCount, List.countP_cons, isConnectAttempt]

theorem attemptCount_cons_sleep (d : Nat) (tr : List DiscEvent) :
    attemptCount (.sleepDelay d :: tr) = attemptCount tr := by
  simp [attemptCount, List.countP_cons, isConnectAttempt]

theorem spawnCount_cons_attempt (i : Nat) (tr : List DiscEvent) :
    spawnCount (.connectAttempt i :: tr) = spawnCount tr := by
  simp [spawnCount, List.countP_cons, isSpawn]

theorem spawnCount_cons_sleep (d : Nat) (tr : List DiscEvent) :
    spawnCount (.sleepDelay d :: tr) = spawnCount tr := by
  simp [spawnCount, List.countP_cons, isSpawn]

theorem sleepCount_cons_attempt (i : Nat) (tr : List DiscEvent) :
    sleepCount (.connectAttempt i :: tr) = sleepCount tr := by
  simp [sleepCount, List.countP_cons, isSleep]

theorem sleepCount_cons_sleep (d : Nat) (tr : List DiscEvent) :
    sleepCount (.sleepDelay d :: tr) = sleepCount tr + 1 := by
  simp [sleepCount, List.countP_cons, isSleep]

theorem discCloseCount_cons_attempt (i : Nat) (tr : List DiscEvent) :
    discCloseCount (.connectAttempt i :: tr) = discCloseCount tr := by
  simp [discCloseCount, List.countP_cons, isClose]

theorem discCloseCount_cons_sleep (d : Nat) (tr : List DiscEvent) :
    discCloseCount (.sleepDelay d :: tr) = discCloseCount tr := by
  simp [discCloseCount, List.countP_cons, isClose]

theorem reconnect_attempts_ok (outcome : Nat → Bool) :
    ∀ (k i K : Nat), K < k → (∀ j, j < K → outcome (i + j) = false) →
      outcome (i + K) = true →
      (reconnect_attempts outcome k i).1 = true ∧
      attemptCount (reconnect_attempts outcome k i).2 = K + 1 ∧
      spawnCount (reconnect_attempts outcome k i).2 = 1 ∧
      sleepCount (reconnect_attempts outcome k i).2 = K := by
  intro k
  induction k with
  | zero => intro i K hK; omega
  | succ k ih =>
      intro i K hK hfail hsucc
      cases K with
      | zero =>
          have h0 : outcome i = true := by simpa using hsucc
          rw [reconnect_attempts_success_step outcome k i h0]
          refine ⟨rfl, ?_, ?_, ?_⟩ <;>
            simp [attemptCount, spawnCount, sleepCount, List.countP_cons,
              isConnectAttempt, isSpawn, isSleep]
      | succ K' =>
          have h0 : outcome i = false := by
            simpa using hfail 0 (Nat.succ_pos K')
          have hfail' : ∀ j, j < K' → outcome (i + 1 + j) = false := by
            intro j hj
            have := hfail (j + 1) (by omega)
            simpa [Nat.add_assoc, Nat.add_comm 1 j] using this
          have hsucc' : outcome (i + 1 + K') = true := by
            have h : i + 1 + K' = i + (K' + 1) := by omega
            rw [h]; exact hsucc
          obtain ⟨h₁, h₂, h₃, h₄⟩ := ih (i + 1) K' (by omega) hfail' hsucc'
          rw [reconnect_attempts_fail_step outcome k i h0]
          refine ⟨h₁, ?_, ?_, ?_⟩
          · rw [show ((reconnect_attempts outcome k (i + 1)).1,
              DiscEvent.connectAttempt i :: DiscEvent.sleepDelay 10 ::
                (reconnect_attempts outcome k (i + 1)).2).2 =
              DiscEvent.connectAttempt i :: DiscEvent.sleepDelay 10 ::
                (reconnect_attempts outcome k (i + 1)).2 from rfl,
              attemptCount_cons_attempt, attemptCount_cons_sleep, h₂]
          · rw [show ((reconnect_attempts outcome k (i + 1)).1,
              DiscEvent.connectAttempt i :: DiscEvent.sleepDelay 10 ::
                (reconnect_attempts outcome k (i + 1)).2).2 =
              DiscEvent.connectAttempt i :: DiscEvent.sleepDelay 10 ::
                (reconnect_attempts outcome k (i + 1)).2 from rfl,
              spawnCount_cons_attempt, spawnCount_cons_sleep, h₃]
          · rw [show ((reconnect_attempts outcome k (i + 1)).1,
              DiscEvent.connectAttempt i :: DiscEvent.sleepDelay 10 ::
                (reconnect_attempts outcome k (i + 1)).2).2 =
              DiscEvent.connectAttempt i :: DiscEvent.sleepDelay 10 ::
                (reconnect_attempts outcome k (i + 1)).2 from rfl,
              sleepCount_cons_attempt, sleepCount_cons_sleep, h₄]

theorem reconnect_attempts_all_fail (outcome : Nat → Bool) :
    ∀ (k i : Nat), (∀ j, j < k → outcome (i + j) = false) →
      (reconnect_attempts outcome k i).1 = false ∧
      attemptCount (reconnect_attempts outcome k i).2 = k ∧
      spawnCount (reconnect_attempts outcome k i).2 = 0 ∧
      sleepCount (reconnect_attempts outcome k i).2 = k := by
  intro k
  induction k with
  | zero =>
      intro i _
      simp [reconnect_attempts, attemptCount, spawnCount, sleepCount]
  | succ k ih =>
      intro i hfail
      have h0 : outcome i = false := by simpa using hfail 0 (Nat.succ_pos k)
      have hfail' : ∀ j, j < k → outcome (i + 1 + j) = false := by
        intro j hj
        have := hfail (j + 1) (by omega)
        simpa [Nat.add_assoc, Nat.add_comm 1 j] using this
      obtain ⟨h₁, h₂, h₃, h₄⟩ := ih (i + 1) hfail'
      rw [reconnect_attempts_fail_step outcome k i h0]
      refine ⟨h₁, ?_, ?_, ?_⟩
      · rw [show ((reconnect_attempts outcome k (i + 1)).1,
          DiscEvent.connectAttempt i :: DiscEvent.sleepDelay 10 ::
            (reconnect_attempts outcome k (i + 1)).2).2 =
          DiscEvent.connectAttempt i :: DiscEvent.sleepDelay 10 ::
            (reconnect_attempts outcome k (i + 1)).2 from rfl,
          attemptCount_cons_attempt, attemptCount_cons_sleep, h₂]
      · rw [show ((reconnect_attempts outcome k (i + 1)).1,
          DiscEvent.connectAttempt i :: DiscEvent.sleepDelay 10 ::
            (reconnect_attempts outcome k (i + 1)).2).2 =
          DiscEvent.connectAttempt i :: DiscEvent.sleepDelay 10 ::
            (reconnect_attempts outcome k (i + 1)).2 from rfl,
          spawnCount_cons_attempt, spawnCount_cons_sleep, h₃]
      · rw [show ((reconnect_attempts outcome k (i + 1)).1,
          DiscEvent.connectAttempt i :: DiscEvent.sleepDelay 10 ::
            (reconnect_attempts outcome k (i + 1)).2).2 =
          DiscEvent.connectAttempt i :: DiscEvent.sleepDelay 10 ::
            (reconnect_attempts outcome k (i + 1)).2 from rfl,
          sleepCount_cons_attempt, sleepCount_cons_sleep, h₄]

theorem attemptCount_pre (closing : Bool) (tr : List DiscEvent) :
    attemptCount ((if closing then ([] : List DiscEvent) else [.closeClient]) ++ tr)
      = attemptCount tr := by
  cases closing <;> simp [attemptCount, List.countP_cons, isConnectAttempt]

theorem spawnCount_pre (closing : Bool) (tr : List DiscEvent) :
    spawnCount ((if closing then ([] : List DiscEvent) else [.closeClient]) ++ tr)
      = spawnCount tr := by
  cases closing <;> simp [spawnCount, List.countP_cons, isSpawn]

theorem sleepCount_pre (closing : Bool) (tr : List DiscEvent) :
    sleepCount ((if closing then ([] : List DiscEvent) else [.closeClient]) ++ tr)
      = sleepCount tr := by
  cases closing <;> simp [sleepCount, List.countP_cons, isSleep]

/-- **C2.** After a connection-lost event, `_handle_disconnect` makes at
most 5 reconnect attempts with a fixed 10-unit sleep after each failure.
If the attempts with indices `0..K-1` fail and attempt index `K` (the
`K+1`-st attempt, `K < 5`) succeeds, the handler ends `connected = true`,
made exactly `K+1` attempts (none after the success), spawned exactly one
new receive-loop task, and slept exactly `K` times. If all 5 attempts
fail, it ends `connected = false`, made exactly 5 attempts (no 6th),
and spawned no receive loop. -/
theorem handle_disconnect_reconnect_bound (closing : Bool)
    (outcome : Nat → Bool) :
    (∀ K, K < 5 → (∀ j, j < K → outcome j = false) → outcome K = true →
      (handle_disconnect closing outcome).connected = true ∧
      attemptCount (handle_disconnect closing outcome).events = K + 1 ∧
      spawnCount (handle_disconnect closing outcome).events = 1 ∧
      sleepCount (handle_disconnect closing outcome).events = K) ∧
    ((∀ j, j < 5 → outcome j = false) →
      (handle_disconnect closing outcome).connected = false ∧
      attemptCount (handle_disconnect closing outcome).events = 5 ∧
      spawnCount (handle_disconnect closing outcome).events = 0) := by
  constructor
  · intro K hK hfail hsucc
    obtain ⟨h₁, h₂, h₃, h₄⟩ :=
      reconnect_attempts_ok outcome 5 0 K hK (by simpa using hfail)
        (by simpa using hsucc)
    refine ⟨h₁, ?_, ?_, ?_⟩ <;>
      simp [handle_disconnect, attemptCount_pre, spawnCount_pre,
        sleepCount_pre, h₂, h₃, h₄]
  · intro hfail
    obtain ⟨h₁, h₂, h₃, _⟩ :=
      reconnect_attempts_all_fail outcome 5 0 (by simpa using hfail)
    refine ⟨h₁, ?_, ?_⟩ <;>
      simp [handle_disconnect, attemptCount_pre, spawnCount_pre, h₂, h₃]

/-- Witness for `handle_disconnect_reconnect_bound`: an oracle whose
third attempt (index 2) succeeds, and an all-failing oracle. -/
theorem handle_disconnect_reconnect_bound_witness :
    ((handle_disconnect false (fun i => decide (i = 2))).connected = true ∧
      attemptCount (handle_disconnect false (fun i => decide (i = 2))).events = 3 ∧
      spawnCount (handle_disconnect false (fun i => decide (i = 2))).events = 1 ∧
      sleepCount (handle_disconnect false (fun i => decide (i = 2))).events = 2) ∧
    ((handle_disconnect true (fun _ => false)).connected = false ∧
      attemptCount (handle_disconnect true (fun _ => false)).events = 5 ∧
      spawnCount (handle_disconnect true (fun _ => false)).events = 0) := by
  constructor
  · exact (handle_disconnect_reconnect_bound false (fun i => decide (i = 2))).1
      2 (by decide) (by decide) (by decide)
  · exact (handle_disconnect_reconnect_bound true (fun _ => false)).2
      (by intro j hj; rfl)

theorem reconnect_attempts_no_close (outcome : Nat → Bool) :
    ∀ (k i : Nat), discCloseCount (reconnect_attempts outcome k i).2 = 0 := by
  intro k
  induction k with
  | zero => intro i; simp [reconnect_attempts, discCloseCount]
  | succ k ih =>
      intro i
      by_cases h : outcome i = true
      · rw [reconnect_attempts_success_step outcome k i h]
        simp [discCloseCount, List.countP_cons, isClose]
      · rw [reconnect_attempts_fail_step outcome k i (by simpa using h)]
        rw [show ((reconnect_attempts outcome k (i + 1)).1,
          DiscEvent.connectAttempt i :: DiscEvent.sleepDelay 10 ::
            (reconnect_attempts outcome k (i + 1)).2).2 =
          DiscEvent.connectAttempt i :: DiscEvent.sleepDelay 10 ::
            (reconnect_attempts outcome k (i + 1)).2 from rfl,
          discCloseCount_cons_attempt, discCloseCount_cons_sleep, ih (i + 1)]

/-- **C7.** When the disconnect handler runs and the transport already
reports `_closing`, the handler never calls `close()`; when the transport
is not closing it calls `close()` exactly once, for cleanup (the
reconnect portion of the handler never closes). -/
theorem handle_disconnect_no_double_close (outcome : Nat → Bool) :
    discCloseCount (handle_disconnect true outcome).events = 0 ∧
    discCloseCount (handle_disconnect false outcome).events = 1 := by
  constructor <;>
    simp [handle_disconnect, discCloseCount, List.countP_cons, isClose] <;>
    simpa [discCloseCount] using reconnect_attempts_no_close outcome 5 0

/-! ### Coordinator task lifecycle (`async_start`, `_handle_disconnect`,
`async_stop`)

`async_start` connects and spawns the single receive-loop task
(`self._receive_task = asyncio.create_task(self._receive_loop())`); it is
called exactly once, by `async_setup_entry` at integration setup.
`async_stop` cancels the task and awaits it. A connection-lost signal
from the transport means the inbound stream has terminated: the running
receive loop exits (closing the client), and `_handle_disconnect` runs;
a new receive-loop task is spawned only by a successful reconnect
attempt (see `reconnect_attempts`). The lifecycle is modelled as a
transition system over these high-level events, each transition bundling
the serial effects of the event on the single cooperative event loop. -/

/-- Coordinator lifecycle state: how many receive-loop tasks are active,
and the `_connected` flag. -/
structure CoordState where
  loopTasks : Nat
  connected : Bool

/-- High-level lifecycle events of one coordinator. -/
inductive CoordEvent where
  /-- `async_start` at setup: connect succeeds, the receive loop is
  spawned. Called once, as the first event (`async_setup_entry`). -/
  | initialStart
  /-- The receive loop exits on its own (stream end, cancellation caught,
  or a propagating exception); its `finally` closes the client. -/
  | loopEnded
  /-- Unexpected connection loss: the terminated stream ends the running
  receive loop, and `_handle_disconnect` runs with the given per-attempt
  connect oracle, spawning one fresh loop only on a successful attempt. -/
  | connectionLost (outcome : Nat → Bool)
  /-- `async_stop`: cancels the receive-loop task (if any) and awaits it. -/
  | stopRequested

/-- One lifecycle transition. -/
def coordStep (s : CoordState) : CoordEvent → CoordState
  | .initialStart => ⟨s.loopTasks + 1, true⟩
  | .loopEnded => ⟨s.loopTasks - 1, s.connected⟩
  | .connectionLost outcome =>
      let ok := (reconnect_attempts outcome 5 0).1
      ⟨s.loopTasks - 1 + (if ok then 1 else 0), ok⟩
  | .stopRequested => ⟨s.loopTasks - 1, s.connected⟩

/-- Run a sequence of lifecycle events from a state. -/
def coordRun (s : CoordState) (evs : List CoordEvent) : CoordState :=
  evs.foldl coordStep s

/-- State before `async_setup_entry`: no receive-loop task, disconnected. -/
def initialCoord : CoordState := ⟨0, false⟩

theorem coordStep_preserves_at_most_one (s : CoordState) (e : CoordEvent)
    (hs : s.loopTasks ≤ 1) (he : e ≠ CoordEvent.initialStart) :
    (coordStep s e).loopTasks ≤ 1 := by
  cases e with
  | initialStart => exact absurd rfl he
  | loopEnded => simp [coordStep]; omega
  | connectionLost outcome =>
      simp only [coordStep]
      split <;> omega
  | stopRequested => simp [coordStep]; omega

theorem coordRun_take_at_most_one (evs : List CoordEvent) :
    ∀ (s : CoordState), s.loopTasks ≤ 1 →
      (∀ e ∈ evs, e ≠ CoordEvent.initialStart) →
      ∀ n, (coordRun s (evs.take n)).loopTasks ≤ 1 := by
  induction evs with
  | nil => intro s hs _ n; cases n <;> simpa [coordRun]
  | cons e rest ih =>
      intro s hs hne n
      cases n with
      | zero => simpa [coordRun] using hs
      | succ m =>
          have hstep := coordStep_preserves_at_most_one s e hs
            (hne e (List.mem_cons_self e rest))
          simpa [coordRun, List.take_succ_cons] using
            ih (coordStep s e) hstep
              (fun e' he' => hne e' (List.mem_cons_of_mem e he')) m

/-- **C8.** In every execution of a coordinator — the initial
`async_start` (the first event, fired once by `async_setup_entry`),
followed by any sequence of receive-loop exits, connection-lost
disconnect handlings with their reconnect attempts, and stops — at
every instant (i.e. after every prefix of the event sequence) at most
one receive-loop task is active. -/
theorem coordinator_at_most_one_loop (rest : List CoordEvent)
    (hrest : ∀ e ∈ rest, e ≠ CoordEvent.initialStart) :
    ∀ n, (coordRun initialCoord
      ((CoordEvent.initialStart :: rest).take n)).loopTasks ≤ 1 := by
  intro n
  cases n with
  | zero => simp [coordRun, initialCoord]
  | succ m =>
      have h1 : (coordStep initialCoord CoordEvent.initialStart).loopTasks ≤ 1 := by
        simp [coordStep, initialCoord]
      simpa [coordRun, List.take_succ_cons] using
        coordRun_take_at_most_one rest
          (coordStep initialCoord CoordEvent.initialStart) h1 hrest m

/-- Witness for `coordinator_at_most_one_loop`: a start, a connection
loss whose first reconnect attempt succeeds, then a stop. -/
theorem coordinator_at_most_one_loop_witness :
    (coordRun initialCoord
      ((CoordEvent.initialStart ::
        [CoordEvent.connectionLost (fun _ => true),
         CoordEvent.stopRequested]).take 3)).loopTasks ≤ 1 := by
  exact coordinator_at_most_one_loop
    [CoordEvent.connectionLost (fun _ => true), CoordEvent.stopRequested]
    (by
      intro e he
      rcases List.mem_cons.mp he with rfl | he'
      · intro hc; cases hc
      · rcases List.mem_cons.mp he' with rfl | he''
        · intro hc; cases hc
        · cases he'')
    3

/-! ### Callback registry (`VentAxiaCoordinator.remove_update_callback`)

```
def remove_update_callback(self, callback):
    self._callbacks.remove(callback)
```

Python's `list.remove` removes the first occurrence of the value and
raises `ValueError` when the value is absent; the raised error is
modelled as `none`. -/

/-- `list.remove` as used by `remove_update_callback`: `none` models the
`ValueError` Python raises for an absent element, `some cbs'` the registry
after removing the first occurrence. -/
def remove_update_callback {κ : Type} [DecidableEq κ] :
    List κ → κ → Option (List κ)
  | [], _ => none
  | x :: xs, c =>
      if x = c then some xs
      else (remove_update_callback xs c).map (x :: ·)

/-- **C9.** Removing an update callback that is not currently registered
raises (`none`: Python `list.remove` raises `ValueError`); removing a
registered callback deletes exactly the first occurrence of that
callback and leaves the rest of the registry unchanged, in order. -/
theorem remove_update_callback_spec {κ : Type} [DecidableEq κ]
    (cbs : List κ) (c : κ) :
    (c ∉ cbs → remove_update_callback cbs c = none) ∧
    (c ∈ cbs → ∃ pre post, cbs = pre ++ c :: post ∧ c ∉ pre ∧
      remove_update_callback cbs c = some (pre ++ post)) := by
  induction cbs with
  | nil => exact ⟨fun _ => rfl, fun h => absurd h (List.not_mem_nil c)⟩
  | cons x xs ih =>
      constructor
      · intro hni
        have hx : ¬x = c := fun h => hni (h ▸ List.mem_cons_self x xs)
        have hxs : c ∉ xs := fun h => hni (List.mem_cons_of_mem x h)
        simp [remove_update_callback, hx, ih.1 hxs]
      · intro hmem
        by_cases hx : x = c
        · subst hx
          exact ⟨[], xs, rfl, List.not_mem_nil x, by
            simp [remove_update_callback]⟩
        · have hxs : c ∈ xs := by
            rcases List.mem_cons.mp hmem with h | h
            · exact absurd h.symm hx
            · exact h
          obtain ⟨pre, post, heq, hnp, hrm⟩ := ih.2 hxs
          refine ⟨x :: pre, post, by simp [heq], ?_, ?_⟩
          · intro hc
            rcases List.mem_cons.mp hc with h | h
            · exact hx h.symm
            · exact hnp h
          · simp [remove_update_callback, hx, hrm]

/-- Witness for `remove_update_callback_spec`: removing `2` from
`[1, 2, 3]` yields `[1, 3]`; removing `9` raises. -/
theorem remove_update_callback_spec_witness :
    remove_update_callback [1, 2, 3] 9 = none ∧
    ∃ pre post, ([1, 2, 3] : List Nat) = pre ++ 2 :: post ∧ 2 ∉ pre ∧
      remove_update_callback [1, 2, 3] 2 = some (pre ++ post) := by
  exact ⟨(remove_update_callback_spec [1, 2, 3] 9).1 (by decide),
    (remove_update_callback_spec [1, 2, 3] 2).2 (by decide)⟩

/-! ### Runtime timer (`VentAxiaRuntimeTimer`)

Timestamps are rationals measured in seconds (Python `datetime` has
sub-second resolution; `timedelta(minutes=d)` is `60 * d` seconds).
Python's `int(x)` truncates toward zero; on a rational `q = num / den`
(normalised, `den > 0`) that is `Int.tdiv q.num q.den`. -/

/-- `self._timer_state`: `"idle"` or `"active"`. -/
inductive TimerState where
  | idle
  | active
  deriving DecidableEq

/-- Events fired on `hass.bus` by the timer (`ventaxia_timer_started`,
`ventaxia_timer_finished`). -/
inductive TimerEvent where
  | started (durationMinutes : Nat)
  | finished
  deriving DecidableEq

/-- The mutable state of a `VentAxiaRuntimeTimer`, plus the list of bus
events it has fired. `update_task` is `true` while a ticking
`_timer_update_loop` task is live. -/
structure TimerModel where
  timer_state : TimerState
  timer_duration : Nat
  timer_start : Option ℚ
  timer_finish : Option ℚ
  update_task : Bool
  events : List TimerEvent
  deriving DecidableEq

/-- `__init__`: idle, duration 0, no timestamps, no ticking task. -/
def initTimer : TimerModel :=
  ⟨.idle, 0, none, none, false, []⟩

/-- Python `int()` on a rational: truncation toward zero. -/
def intTrunc (q : ℚ) : ℤ := Int.tdiv q.num q.den

/-- Python `max(0, x)` on integers. -/
def pyMax0 (x : ℤ) : ℤ := if 0 ≤ x then x else 0

theorem pyMax0_eq_max (x : ℤ) : pyMax0 x = max 0 x := by
  rw [pyMax0]
  rcases le_or_lt 0 x with h | h
  · rw [if_pos h, max_eq_right h]
  · rw [if_neg (not_le.mpr h), max_eq_left h.le]

/-- `VentAxiaRuntimeTimer.remaining`:

```
if self._timer_state != "active" or not self._timer_finish:
    return 0
return max(0, int((self._timer_finish - datetime.now(...)).total_seconds()))
``` -/
def remaining (s : TimerModel) (now : ℚ) : ℤ :=
  match s.timer_finish with
  | none => 0
  | some f =>
      if s.timer_state = TimerState.active then pyMax0 (intTrunc (f - now))
      else 0

/-- `VentAxiaRuntimeTimer.async_start_timer`: a no-op while already
active with a live ticking task; otherwise sets the state active,
records duration / start / `finish = now + duration` minutes, fires one
`ventaxia_timer_started` event, and ensures exactly one ticking task is
running (spawning one only if none exists). -/
def async_start_timer (s : TimerModel) (duration_minutes : Nat) (now : ℚ) :
    TimerModel :=
  if s.timer_state = TimerState.active ∧ s.update_task then s
  else
    { timer_state := TimerState.active
      timer_duration := duration_minutes
      timer_start := some now
      timer_finish := some (now + 60 * duration_minutes)
      update_task := true
      events := s.events ++ [TimerEvent.started duration_minutes] }

/-- `VentAxiaRuntimeTimer.async_cancel_timer`: cancels and awaits the
ticking task (clearing its handle), sets the state idle, fires one
`ventaxia_timer_finished` event only on the `finished=True` path, and
clears start / finish / duration. -/
def async_cancel_timer (s : TimerModel) (finished : Bool) : TimerModel :=
  { timer_state := TimerState.idle
    timer_duration := 0
    timer_start := none
    timer_finish := none
    update_task := false
    events := if finished then s.events ++ [TimerEvent.finished] else s.events }

/-- `VentAxiaRuntimeTimer._timer_update_loop` coupled with simulated
time: each `asyncio.sleep(1)` advances `now` by one second. While active
with a finish timestamp, the loop publishes state each tick; once
`remaining <= 0` it takes the finished-cancel path and stops. The
`finally` block clears the task handle on every exit. `fuel` bounds the
number of loop iterations examined. -/
def timer_update_loop : Nat → TimerModel → ℚ → TimerModel × ℚ
  | 0, s, now => (s, now)
  | fuel + 1, s, now =>
      if s.timer_state = TimerState.active ∧ s.timer_finish ≠ none then
        if remaining s now ≤ 0 then (async_cancel_timer s true, now)
        else timer_update_loop fuel s (now + 1)
      else ({ s with update_task := false }, now)

/-- Count of `ventaxia_timer_started` events. -/
def startedCount (evs : List TimerEvent) : Nat :=
  evs.countP fun e =>
    match e with
    | .started _ => true
    | .finished => false

/-- Count of `ventaxia_timer_finished` events. -/
def finishedCount (evs : List TimerEvent) : Nat :=
  evs.countP fun e =>
    match e with
    | .started _ => false
    | .finished => true

/-- **C4.** `async_start_timer` while already `active` with a live
ticking task is a no-op, leaving state, timestamps, duration, task and
events unchanged; hence calling start twice in immediate succession
produces exactly one `started` event and exactly one ticking task, with
the timestamps and duration of the first call untouched. -/
theorem timer_start_idempotent (s : TimerModel) (d : Nat) (t : ℚ)
    (d₂ : Nat) (t₂ : ℚ) :
    (s.timer_state = TimerState.active → s.update_task = true →
      async_start_timer s d t = s) ∧
    async_start_timer (async_start_timer initTimer d t) d₂ t₂ =
      async_start_timer initTimer d t ∧
    startedCount (async_start_timer (async_start_timer initTimer d t) d₂ t₂).events = 1 ∧
    (async_start_timer (async_start_timer initTimer d t) d₂ t₂).update_task = true := by
  have hnoop : ∀ (s' : TimerModel), s'.timer_state = TimerState.active →
      s'.update_task = true → async_start_timer s' d₂ t₂ = s' := by
    intro s' h1 h2
    simp [async_start_timer, h1, h2]
  have hfirst : async_start_timer initTimer d t =
      { timer_state := TimerState.active
        timer_duration := d
        timer_start := some t
        timer_finish := some (t + 60 * d)
        update_task := true
        events := [TimerEvent.started d] } := by
    simp [async_start_timer, initTimer]
  have hsecond := hnoop (async_start_timer initTimer d t)
    (by rw [hfirst]) (by rw [hfirst])
  refine ⟨fun h1 h2 => by simp [async_start_timer, h1, h2], hsecond, ?_, ?_⟩
  · rw [hsecond, hfirst]
    simp [startedCount]
  · rw [hsecond, hfirst]

/-- Witness for `timer_start_idempotent`: a concrete active timer with a
live ticking task is unchanged by `async_start_timer`. -/
theorem timer_start_idempotent_witness :
    async_start_timer
      ⟨TimerState.active, 5, some 0, some 300, true, [TimerEvent.started 5]⟩
      7 12 =
      ⟨TimerState.active, 5, some 0, some 300, true, [TimerEvent.started 5]⟩ ∧
    startedCount (async_start_timer (async_start_timer initTimer 5 0) 5 0).events = 1 := by
  exact ⟨(timer_start_idempotent
      ⟨TimerState.active, 5, some 0, some 300, true, [TimerEvent.started 5]⟩
      7 12 7 12).1 rfl rfl,
    (timer_start_idempotent initTimer 5 0 5 0).2.2.1⟩

/-- The state of the scenario timer right after
`async_start_timer initTimer 1 0`: active, duration 1 minute, started at
time 0, finishing at 60 s, ticking task live, one `started` event. -/
def startedOneMinute : TimerModel :=
  ⟨.active, 1, some 0, some 60, true, [.started 1]⟩

theorem intTrunc_intCast (z : ℤ) : intTrunc (z : ℚ) = z := by
  rw [intTrunc, Rat.num_intCast, Rat.den_intCast]
  simp

theorem timer_update_loop_succ (fuel : Nat) (s : TimerModel) (now : ℚ) :
    timer_update_loop (fuel + 1) s now =
      if s.timer_state = TimerState.active ∧ s.timer_finish ≠ none then
        if remaining s now ≤ 0 then (async_cancel_timer s true, now)
        else timer_update_loop fuel s (now + 1)
      else ({ s with update_task := false }, now) := rfl

theorem remaining_startedOneMinute (t : ℤ) (h0 : 0 ≤ t) (h : t ≤ 60) :
    remaining startedOneMinute (t : ℚ) = 60 - t := by
  have hcast : (60 : ℚ) - (t : ℚ) = ((60 - t : ℤ) : ℚ) := by push_cast; ring
  simp only [remaining, startedOneMinute]
  rw [if_pos trivial, hcast, intTrunc_intCast]
  simp only [pyMax0]
  rw [if_pos (by omega : (0 : ℤ) ≤ 60 - t)]

theorem startedOneMinute_cond :
    startedOneMinute.timer_state = TimerState.active ∧
      startedOneMinute.timer_finish ≠ none :=
  ⟨rfl, by simp [startedOneMinute]⟩

theorem timer_update_loop_shift :
    ∀ (n fuel : Nat) (t : ℤ), 0 ≤ t → t + n ≤ 60 →
      timer_update_loop (n + fuel) startedOneMinute (t : ℚ) =
        timer_update_loop fuel startedOneMinute ((t + n : ℤ) : ℚ) := by
  intro n
  induction n with
  | zero => intro fuel t h0 h; simp
  | succ n ih =>
      intro fuel t h0 h
      have hrem : remaining startedOneMinute (t : ℚ) = 60 - t :=
        remaining_startedOneMinute t h0 (by omega)
      have hpos : ¬ remaining startedOneMinute (t : ℚ) ≤ 0 := by
        rw [hrem]; omega
      have hfuel : n + 1 + fuel = (n + fuel) + 1 := by omega
      rw [hfuel, timer_update_loop_succ, if_pos startedOneMinute_cond,
        if_neg hpos]
      have hstep : (t : ℚ) + 1 = ((t + 1 : ℤ) : ℚ) := by push_cast; ring
      rw [hstep, ih fuel (t + 1) (by omega) (by omega)]
      congr 1
      push_cast
      ring

/-- **C5.** A timer started at time 0 with duration 1 minute, its update
loop run with simulated time advancing one second per tick, finishes
within 61 seconds: the loop takes the finished-cancel path at the tick
where remaining reaches 0 (60 s), leaving `remaining = 0` at 61 s,
state `idle`, and exactly one `finished` event. A timer cancelled via
the explicit cancel path (`finished=False`) after 30 elapsed seconds has
`remaining = 0`, state `idle`, and zero `finished` events. -/
theorem timer_countdown_correct :
    (remaining (timer_update_loop 62 (async_start_timer initTimer 1 0) 0).1 61 = 0 ∧
      (timer_update_loop 62 (async_start_timer initTimer 1 0) 0).1.timer_state =
        TimerState.idle ∧
      finishedCount
        (timer_update_loop 62 (async_start_timer initTimer 1 0) 0).1.events = 1 ∧
      (timer_update_loop 62 (async_start_timer initTimer 1 0) 0).2 = 60) ∧
    (remaining
        (async_cancel_timer
          (timer_update_loop 30 (async_start_timer initTimer 1 0) 0).1 false) 30 = 0 ∧
      (async_cancel_timer
        (timer_update_loop 30 (async_start_timer initTimer 1 0) 0).1 false).timer_state =
        TimerState.idle ∧
      finishedCount
        (async_cancel_timer
          (timer_update_loop 30 (async_start_timer initTimer 1 0) 0).1 false).events = 0 ∧
      (timer_update_loop 30 (async_start_timer initTimer 1 0) 0).2 = 30) := by
  have hS : async_start_timer initTimer 1 0 = startedOneMinute := by
    norm_num [async_start_timer, initTimer, startedOneMinute]
  have hrem60 : remaining startedOneMinute (60 : ℚ) = 0 := by
    have h := remaining_startedOneMinute 60 (by omega) (by omega)
    norm_num at h
    exact h
  have h2 : timer_update_loop 2 startedOneMinute 60 =
      (async_cancel_timer startedOneMinute true, (60 : ℚ)) := by
    rw [show (2 : Nat) = 1 + 1 by rfl, timer_update_loop_succ,
      if_pos startedOneMinute_cond, if_pos (by rw [hrem60])]
  have h62 : timer_update_loop 62 startedOneMinute 0 =
      (async_cancel_timer startedOneMinute true, (60 : ℚ)) := by
    have h := timer_update_loop_shift 60 2 0 (by omega) (by omega)
    norm_num at h
    rw [h, h2]
  have h30 : timer_update_loop 30 startedOneMinute 0 = (startedOneMinute, (30 : ℚ)) := by
    have h := timer_update_loop_shift 30 0 0 (by omega) (by omega)
    norm_num at h
    exact h
  have hcfin : async_cancel_timer startedOneMinute true =
      ⟨TimerState.idle, 0, none, none, false,
        [TimerEvent.started 1, TimerEvent.finished]⟩ := by
    simp [async_cancel_timer, startedOneMinute]
  have hccan : async_cancel_timer startedOneMinute false =
      ⟨TimerState.idle, 0, none, none, false, [TimerEvent.started 1]⟩ := by
    simp [async_cancel_timer, startedOneMinute]
  rw [hS]
  refine ⟨⟨?_, ?_, ?_, ?_⟩, ?_, ?_, ?_, ?_⟩
  · rw [h62, hcfin]; rfl
  · rw [h62, hcfin]
  · rw [h62, hcfin]; decide
  · rw [h62]
  · rw [h30, hccan]; rfl
  · rw [h30, hccan]
  · rw [h30, hccan]; decide
  · rw [h30]

theorem max_intTrunc_eq_max_floor (q : ℚ) :
    pyMax0 (intTrunc q) = max 0 ⌊q⌋ := by
  rw [pyMax0_eq_max]
  rcases le_or_lt 0 q.num with h | h
  · have hd : (0 : ℤ) ≤ (q.den : ℤ) := Int.ofNat_nonneg q.den
    rw [intTrunc, Int.tdiv_eq_ediv h hd, Rat.floor_def]
  · have hq : q < 0 := Rat.num_neg.mp h
    have ht : intTrunc q ≤ 0 := by
      rw [intTrunc, show q.num = -(-q.num) by ring, Int.neg_tdiv]
      exact Int.neg_nonpos_of_nonneg
        (Int.tdiv_nonneg (by omega) (Int.ofNat_nonneg q.den))
    have hf : ⌊q⌋ ≤ 0 := Int.floor_nonpos hq.le
    rw [max_eq_left ht, max_eq_left hf]

/-- **C6.** For every timer state and every current time, `remaining` is
a whole number of seconds that is never negative; it is exactly 0
whenever the state is idle or the current time is at or past the finish
timestamp, and equals `max 0 ⌊finish − now⌋` (floor-truncated whole
seconds) whenever the timer is active with a finish timestamp. -/
theorem remaining_semantics (s : TimerModel) (now : ℚ) :
    0 ≤ remaining s now ∧
    (s.timer_state = TimerState.idle → remaining s now = 0) ∧
    (∀ f, s.timer_finish = some f → f ≤ now → remaining s now = 0) ∧
    (∀ f, s.timer_state = TimerState.active → s.timer_finish = some f →
      remaining s now = max 0 ⌊f - now⌋) := by
  refine ⟨?_, ?_, ?_, ?_⟩
  · rcases hf : s.timer_finish with _ | f
    · simp [remaining, hf]
    · by_cases hs : s.timer_state = TimerState.active
      · simp only [remaining, hf, if_pos hs, pyMax0_eq_max]
        exact le_max_left 0 _
      · simp [remaining, hf, hs]
  · intro hidle
    rcases hf : s.timer_finish with _ | f
    · simp [remaining, hf]
    · simp [remaining, hf, hidle]
  · intro f hf hle
    by_cases hs : s.timer_state = TimerState.active
    · simp only [remaining, hf, if_pos hs, max_intTrunc_eq_max_floor]
      exact max_eq_left (Int.floor_nonpos (by linarith))
    · simp [remaining, hf, hs]
  · intro f hact hf
    simp only [remaining, hf, if_pos hact, max_intTrunc_eq_max_floor]

/-- Witness for `remaining_semantics`: an active timer finishing at
100.5 s, evaluated 3.25 s before its finish, has 97 whole seconds
remaining; evaluated at its finish time it has 0. -/
theorem remaining_semantics_witness :
    remaining ⟨TimerState.active, 2, some 0, some (201/2), true, []⟩ (389/4) =
      max 0 ⌊(201/2 : ℚ) - 389/4⌋ ∧
    remaining ⟨TimerState.active, 2, some 0, some (201/2), true, []⟩ (201/2) = 0 ∧
    remaining ⟨TimerState.idle, 0, none, none, false, []⟩ 7 = 0 := by
  refine ⟨(remaining_semantics
      ⟨TimerState.active, 2, some 0, some (201/2), true, []⟩ (389/4)).2.2.2
      (201/2) rfl rfl, ?_, ?_⟩
  · exact (remaining_semantics
      ⟨TimerState.active, 2, some 0, some (201/2), true, []⟩ (201/2)).2.2.1
      (201/2) rfl (le_refl _)
  · exact (remaining_semantics
      ⟨TimerState.idle, 0, none, none, false, []⟩ 7).2.1 rfl

/-! ### Config-flow validation (`config_flow.validate_input`)

```
try:
    await client.connect(timeout=10.0)
    await client.close()
except ssl.SSLError as err:
    if "application data after close notify" in str(err):
        _LOGGER.error("Non-critical SSL shutdown error ...", err)
    else:
        _LOGGER.error(...)
        raise CannotConnect from err
except Exception as err:
    _LOGGER.error(...)
    raise
return {"title": f"VentAxia Device ({data[CONF_HOST]})"}
```

The connect/close pair is external; its outcome is either success, an
`ssl.SSLError` with a message, or some other exception. Python's
substring operator `in` is modelled on character lists. -/

/-- Does `hay` start with `pat`? -/
def startsWithList {α : Type} [DecidableEq α] : List α → List α → Bool
  | _, [] => true
  | [], _ :: _ => false
  | a :: as, b :: bs => if a = b then startsWithList as bs else false

/-- Python `pat in hay` on lists: `pat` occurs contiguously in `hay`. -/
def containsSub {α : Type} [DecidableEq α] : List α → List α → Bool
  | [], pat => startsWithList [] pat
  | a :: t, pat => startsWithList (a :: t) pat || containsSub t pat

/-- Python `pat in hay` on strings (substring containment). -/
def strContainsSub (hay pat : String) : Bool :=
  containsSub hay.data pat.data

/-- Outcome of the external `client.connect(timeout=10.0)` /
`client.close()` pair inside `validate_input`. -/
inductive ConnectOutcome where
  | success
  | sslError (msg : String)
  | otherFailure (msg : String)
  deriving DecidableEq

/-- Errors `validate_input` can raise: `CannotConnect`, or the original
non-SSL exception re-raised unchanged. -/
inductive FlowError where
  | cannotConnect
  | unexpected (msg : String)
  deriving DecidableEq

/-- The SSL message fragment `validate_input` treats as non-critical. -/
def sslCloseNotifyText : String := "application data after close notify"

/-- `config_flow.validate_input`, given the host from the user input and
the outcome of the connect/close pair. -/
def validate_input (host : String) (outcome : ConnectOutcome) :
    Except FlowError String :=
  match outcome with
  | .success => .ok ("VentAxia Device (" ++ host ++ ")")
  | .sslError m =>
      if strContainsSub m sslCloseNotifyText then
        .ok ("VentAxia Device (" ++ host ++ ")")
      else
        .error .cannotConnect
  | .otherFailure m => .error (.unexpected m)

/-- **C10.** `validate_input` treats one specific connect failure as
success: an SSL error whose message contains
"application data after close notify" is logged and the success title is
still returned (so the flow creates the entry); any other SSL error
raises `CannotConnect`; any non-SSL exception propagates unchanged; and
a clean connect/close returns the success title. -/
theorem validate_input_spec (host m e : String) :
    validate_input host ConnectOutcome.success =
      Except.ok ("VentAxia Device (" ++ host ++ ")") ∧
    (strContainsSub m sslCloseNotifyText = true →
      validate_input host (ConnectOutcome.sslError m) =
        Except.ok ("VentAxia Device (" ++ host ++ ")")) ∧
    (strContainsSub m sslCloseNotifyText = false →
      validate_input host (ConnectOutcome.sslError m) =
        Except.error FlowError.cannotConnect) ∧
    validate_input host (ConnectOutcome.otherFailure e) =
      Except.error (FlowError.unexpected e) := by
  refine ⟨rfl, ?_, ?_, rfl⟩
  · intro h
    simp [validate_input, h]
  · intro h
    simp [validate_input, h]

/-- Witness for `validate_input_spec`: the benign SSL shutdown message is
accepted, a different SSL message raises `CannotConnect`, and a non-SSL
failure propagates. -/
theorem validate_input_spec_witness :
    validate_input "10.0.0.2"
        (ConnectOutcome.sslError
          "SSLError: application data after close notify (ssl.c:2706)") =
      Except.ok "VentAxia Device (10.0.0.2)" ∧
    validate_input "10.0.0.2"
        (ConnectOutcome.sslError "SSLError: handshake failure") =
      Except.error FlowError.cannotConnect ∧
    validate_input "10.0.0.2" (ConnectOutcome.otherFailure "timeout") =
      Except.error (FlowError.unexpected "timeout") := by
  refine ⟨?_, ?_,
    (validate_input_spec "10.0.0.2" "x" "timeout").2.2.2⟩
  · exact (validate_input_spec "10.0.0.2"
      "SSLError: application data after close notify (ssl.c:2706)" "").2.1
      (by decide)
  · exact (validate_input_spec "10.0.0.2"
      "SSLError: handshake failure" "").2.2.1 (by decide)

end VentAxia
